import Mathlib

/-!
Shallow embedding of the MAX7219 seven-segment display driver
(`seven_segment_MAX7219.h` / `seven_segment_MAX7219.cpp`).

Pure data (the segment-pattern lookup table, the control-register
constants) is embedded directly.  Side-effecting operations are embedded
as functions returning the trace of their externally visible effects:
`sendSPI` as a list of pin events, the higher-level operations as the
list of two-byte frames they transmit together with their integer return
status.

Machine integers are modelled as `Nat`/`Int` with explicit `% 256` where
the C++ code converts to `byte` (unsigned 8-bit).  The one out-of-bounds
table read the code can perform is modelled by an explicit `oob`
parameter standing for the unknown byte of flash that sits one past the
end of `asciiTableRef`.

The Arduino `String` class stores a buffer pointer, a capacity and a
length, so `sizeof(String)` is a small platform-dependent constant
(6 bytes on AVR — the target implied by `PROGMEM` /
`pgm_read_byte_near` — and at least 6 on every platform); it is carried
as an explicit parameter `sz` wherever `setString` is involved.
-/

namespace MAX7219

/-- Control register addresses (`#define`s at the top of the .cpp file). -/
def CTRL_DECODEMODE : Nat := 0x09

def CTRL_INTENSITY : Nat := 0x0A

def CTRL_SCANLIMIT : Nat := 0x0B

def CTRL_SHUTDOWN : Nat := 0x0C

def CTRL_DISPLAYTEST : Nat := 0x0F

/-- `#define ASCII_OFFSET 45` -/
def ASCII_OFFSET : Nat := 45

/-- `#define DISPLAY_LENGTH 8` -/
def DISPLAY_LENGTH : Nat := 8

/-- The static segment-pattern table `asciiTableRef` from the header file,
entry by entry (binary literals copied from the `B........` initialisers). -/
def asciiTableRef : List Nat :=
  [ 0b00000001, 0b10000000, 0b00000000, 0b01111110, 0b00110000, 0b01101101,
    0b01111001, 0b00110011, 0b01011011, 0b01011111, 0b01110000,
    0b01111111, 0b01111011, 0b00000000, 0b00000000, 0b00000000, 0b00000000,
    0b00000000, 0b00000000,
    0b00000000, 0b01110111, 0b00011111, 0b00001101, 0b00111101, 0b01001111,
    0b01000111, 0b01111011,
    0b00110111, 0b00110000, 0b00111000, 0b00000000, 0b00001110, 0b00000000,
    0b00010101, 0b01111110,
    0b01100111, 0b00000000, 0b00000101, 0b01011011, 0b00001111, 0b00111110,
    0b00011100, 0b00000000,
    0b00000000, 0b00111011, 0b00000000 ]

/-- Pin-level event emitted by the bit-banged transport: a digital write to
the latch (CS), data (MOSI) or clock (CLK) line. -/
inductive PinEv : Type
  | cs (level : Bool)
  | mosi (level : Bool)
  | clk (level : Bool)
  deriving DecidableEq, Repr

/-- Arduino `shiftOut(dataPin, clockPin, MSBFIRST, val)`: for each of the 8
bits, most significant first, write the bit on the data line, then pulse the
clock line high and low. -/
def shiftOutMSB (val : Nat) : List PinEv :=
  (List.range 8).flatMap fun i =>
    [PinEv.mosi (Nat.testBit val (7 - i)), PinEv.clk true, PinEv.clk false]

/-- `SegmentDriver::sendSPI(data, instruction)` as its pin-event trace:
CS low, instruction byte shifted out MSB-first, data byte shifted out
MSB-first, CS high.  Both parameters are `byte` in the source, hence the
`% 256`. -/
def sendSPI (data instruction : Nat) : List PinEv :=
  PinEv.cs false ::
    (shiftOutMSB (instruction % 256) ++ shiftOutMSB (data % 256) ++ [PinEv.cs true])

/-- `sendSPI` unconditionally `return 0`. -/
def sendSPIRet : Int := 0

/-- Result of one driver call: the returned status and the list of
`(data, instruction)` byte frames handed to `sendSPI`, in order. -/
structure CallResult : Type where
  ret : Int
  frames : List (Nat × Nat)
  deriving DecidableEq, Repr

/-- `SegmentDriver::setBrightness(value)`: reject values outside `[0,15]`
with `-1` and no transmission, otherwise transmit `(value, CTRL_INTENSITY)`
and return the status of `sendSPI`. -/
def setBrightness (value : Int) : CallResult :=
  if value < 0 ∨ value > 15 then ⟨-1, []⟩
  else ⟨sendSPIRet, [(value.toNat, CTRL_INTENSITY)]⟩

/-- `SegmentDriver::setScanLimit(limit)`: reject values outside `[0,7]`
with `-1` and no transmission, otherwise transmit `(limit, CTRL_SCANLIMIT)`. -/
def setScanLimit (limit : Int) : CallResult :=
  if limit < 0 ∨ limit > 7 then ⟨-1, []⟩
  else ⟨sendSPIRet, [(limit.toNat, CTRL_SCANLIMIT)]⟩

/-- `SegmentDriver::turnOn()`: `sendSPI(1, CTRL_SHUTDOWN)`. -/
def turnOn : CallResult := ⟨sendSPIRet, [(1, CTRL_SHUTDOWN)]⟩

/-- `SegmentDriver::turnOff()`: `sendSPI(0, CTRL_SHUTDOWN)`. -/
def turnOff : CallResult := ⟨sendSPIRet, [(0, CTRL_SHUTDOWN)]⟩

/-- The case-folding step of `setChar`: `if (val >= 97 && val <= 122) val -= 32`,
acting on the `byte` value of the character. -/
def toUpperByte (v : Nat) : Nat :=
  if 97 ≤ v ∧ v ≤ 122 then v - 32 else v

/-- The index computation of `setChar`: `byte val = (byte)chr` followed by the
case fold and `val -= ASCII_OFFSET`, all in unsigned 8-bit arithmetic
(subtraction wraps modulo 256). -/
def tableIndex (chr : Nat) : Nat :=
  (toUpperByte (chr % 256) + 256 - ASCII_OFFSET) % 256

/-- The bound check of `setChar`:
`if (val < 0 || val > sizeof(asciiTableRef)) val = 2`.  `val` is unsigned so
`val < 0` never holds; the substitution happens exactly when
`val > 46`. -/
def clampedIndex (chr : Nat) : Nat :=
  let v := tableIndex chr
  if v > asciiTableRef.length then 2 else v

/-- The data byte `setChar` transmits:
`pgm_read_byte_near(asciiTableRef + val)`.  When `val` is a valid index this
is the table entry; when it is not (the code can let `val = 46` through) the
read is out of bounds and yields the unknown flash byte `oob`. -/
def setCharData (oob chr : Nat) : Nat :=
  asciiTableRef.getD (clampedIndex chr) oob

/-- The instruction byte `setChar` transmits: `(byte)(place + 1)`, i.e.
`place + 1` reduced modulo 256 (the C++ `int`-to-`byte` conversion). -/
def setCharAddr (place : Int) : Nat :=
  ((place + 1) % 256).toNat

/-- `SegmentDriver::setChar(place, chr)`: one frame, return status 0 from
`sendSPI`.  `place` is a C++ `int` (any integer); `chr`, passed through
`(byte)chr`, is reduced modulo 256 inside `tableIndex`. -/
def setChar (oob : Nat) (place : Int) (chr : Nat) : CallResult :=
  ⟨sendSPIRet, [(setCharData oob chr, setCharAddr place)]⟩

/-- The per-call character count of `setString`:
`int len = (sizeof(string) > 9) ? 8 : sizeof(string) - 1;` — a function of
`sizeof(String)` (the size `sz` of the `String` object itself), not of the
stored text. -/
def setStringLen (sz : Nat) : Nat :=
  if sz > 9 then 8 else sz - 1

/-- Arduino `String::operator[]`: the stored character at index `i`, or the
NUL character 0 when `i` is past the end of the string. -/
def stringAt (s : List Nat) (i : Nat) : Nat :=
  s.getD i 0

/-- The `(place, character)` pairs `setString` hands to `setChar`:
`setChar((DISPLAY_LENGTH - 1) - i, string[i])` for `i = 0 .. len-1`. -/
def setStringWrites (sz : Nat) (s : List Nat) : List (Int × Nat) :=
  (List.range (setStringLen sz)).map fun (i : Nat) =>
    ((DISPLAY_LENGTH : Int) - 1 - (i : Int), stringAt s i)

/-- `SegmentDriver::setString(string)`: the `setChar` frames in loop order;
unconditionally `return 0`. -/
def setString (oob sz : Nat) (s : List Nat) : CallResult :=
  ⟨0, (setStringWrites sz s).map fun pc => (setCharData oob pc.2, setCharAddr pc.1)⟩

/-- The character codes of the literal `"        "` (eight spaces) passed by
`clear()`. -/
def spaces8 : List Nat := List.replicate 8 32

/-- `SegmentDriver::clear()`: `for (int i = 1; i < DISPLAY_LENGTH + 1; i++)
setString("        ");` — eight identical `setString` calls, no return
value. -/
def clear (oob sz : Nat) : List (Nat × Nat) :=
  (List.range DISPLAY_LENGTH).flatMap fun _ => (setString oob sz spaces8).frames

/-- Externally visible step of the constructor: a pin configured as output,
the initial latch-high write, one `sendSPI` frame, or the final delay. -/
inductive InitEv : Type
  | pinModeOutput (pin : Int)
  | writeCSHigh
  | frame (data instruction : Nat)
  | delayMs (ms : Nat)
  deriving DecidableEq, Repr

/-- The constructor `SegmentDriver::SegmentDriver(pinDIN, pinCLK, pinCS)` as
its event trace: the three `pinMode(..., OUTPUT)` calls, `digitalWrite(CS,
HIGH)`, then `sendSPI(0, CTRL_DISPLAYTEST)`, `setScanLimit(7)`,
`setBrightness(15)`, `turnOn()`, `clear()`, `delay(1000)`. -/
def initTrace (oob sz : Nat) (pinDIN pinCLK pinCS : Int) : List InitEv :=
  [InitEv.pinModeOutput pinDIN, InitEv.pinModeOutput pinCLK,
   InitEv.pinModeOutput pinCS, InitEv.writeCSHigh]
  ++ [InitEv.frame 0 CTRL_DISPLAYTEST]
  ++ ((setScanLimit 7).frames.map fun f => InitEv.frame f.1 f.2)
  ++ ((setBrightness 15).frames.map fun f => InitEv.frame f.1 f.2)
  ++ (turnOn.frames.map fun f => InitEv.frame f.1 f.2)
  ++ ((clear oob sz).map fun f => InitEv.frame f.1 f.2)
  ++ [InitEv.delayMs 1000]

/-! ### Observation helpers for the pin-level trace -/

/-- The sequence of levels written on the MOSI (data) line, in order. -/
def mosiWrites : List PinEv → List Bool
  | [] => []
  | PinEv.mosi b :: rest => b :: mosiWrites rest
  | PinEv.cs _ :: rest => mosiWrites rest
  | PinEv.clk _ :: rest => mosiWrites rest

/-- The sequence of levels written on the CS (latch) line, in order. -/
def csWrites : List PinEv → List Bool
  | [] => []
  | PinEv.cs b :: rest => b :: csWrites rest
  | PinEv.mosi _ :: rest => csWrites rest
  | PinEv.clk _ :: rest => csWrites rest

/-- The 8 bits of a byte value, most significant first. -/
def byteBits (v : Nat) : List Bool :=
  (List.range 8).map fun i => Nat.testBit v (7 - i)

/-- Reassemble a most-significant-bit-first bit list into a number. -/
def msbDecode (bs : List Bool) : Nat :=
  bs.foldl (fun acc b => 2 * acc + (if b then 1 else 0)) 0

set_option maxHeartbeats 1000000 in
set_option maxRecDepth 4000 in
theorem msbDecode_byteBits_lt : ∀ w < 256, msbDecode (byteBits w) = w := by decide

/-- Decoding the MSB-first bit expansion of a value recovers the value
modulo 256. -/
theorem msbDecode_byteBits (v : Nat) : msbDecode (byteBits v) = v % 256 := by
  have h : ∀ k, k < 8 → Nat.testBit (v % 256) k = Nat.testBit v k := by
    intro k hk
    rw [show (256:Nat) = 2 ^ 8 from rfl, Nat.testBit_mod_two_pow]
    simp [hk]
  have e : ∀ w : Nat, byteBits w =
      [w.testBit 7, w.testBit 6, w.testBit 5, w.testBit 4,
       w.testBit 3, w.testBit 2, w.testBit 1, w.testBit 0] := fun w => rfl
  have hb : byteBits (v % 256) = byteBits v := by
    rw [e, e, h 7 (by omega), h 6 (by omega), h 5 (by omega), h 4 (by omega),
        h 3 (by omega), h 2 (by omega), h 1 (by omega), h 0 (by omega)]
  rw [← hb]
  exact msbDecode_byteBits_lt (v % 256) (Nat.mod_lt _ (by norm_num))

theorem mosiWrites_shiftOut (v : Nat) : mosiWrites (shiftOutMSB v) = byteBits v := rfl

end MAX7219

namespace MAX7219

/-- C5: every call of the transmit primitive `sendSPI` emits exactly two
bytes — the instruction byte before the data byte, each shifted out
MSB-first (decoding the MOSI writes recovers the two byte values) — and
the latch (CS) line is written exactly twice: low at the very start of the
trace and high at the very end. -/
theorem sendSPI_two_bytes_bracketed (data instruction : Nat) :
    mosiWrites (sendSPI data instruction)
      = byteBits (instruction % 256) ++ byteBits (data % 256) ∧
    (byteBits (instruction % 256)).length = 8 ∧
    (byteBits (data % 256)).length = 8 ∧
    msbDecode (byteBits (instruction % 256)) = instruction % 256 ∧
    msbDecode (byteBits (data % 256)) = data % 256 ∧
    csWrites (sendSPI data instruction) = [false, true] ∧
    (sendSPI data instruction).head? = some (PinEv.cs false) ∧
    (sendSPI data instruction).getLast? = some (PinEv.cs true) := by
  refine ⟨rfl, rfl, rfl, ?_, ?_, rfl, rfl, rfl⟩
  · rw [msbDecode_byteBits]; omega
  · rw [msbDecode_byteBits]; omega

/-- C4: `setBrightness` rejects every value outside [0,15] with status -1 and
no transmitted frame, and on every value inside [0,15] transmits exactly the
intensity frame and returns 0; `setScanLimit` does the same for [0,7] and the
scan-limit frame. -/
theorem setBrightness_setScanLimit_range (v : Int) :
    ((v < 0 ∨ v > 15) → setBrightness v = ⟨-1, []⟩) ∧
    (0 ≤ v → v ≤ 15 → setBrightness v = ⟨0, [(v.toNat, CTRL_INTENSITY)]⟩) ∧
    ((v < 0 ∨ v > 7) → setScanLimit v = ⟨-1, []⟩) ∧
    (0 ≤ v → v ≤ 7 → setScanLimit v = ⟨0, [(v.toNat, CTRL_SCANLIMIT)]⟩) := by
  refine ⟨fun h => ?_, fun h1 h2 => ?_, fun h => ?_, fun h1 h2 => ?_⟩
  · unfold setBrightness; rw [if_pos h]
  · unfold setBrightness; rw [if_neg (by omega)]; rfl
  · unfold setScanLimit; rw [if_pos h]
  · unfold setScanLimit; rw [if_neg (by omega)]; rfl

/-- Witness for C4 at the concrete inputs 16 (rejected), 5 (accepted),
8 (rejected), 5 (accepted). -/
theorem setBrightness_setScanLimit_range_witness :
    setBrightness 16 = ⟨-1, []⟩ ∧
    setBrightness 5 = ⟨0, [(5, CTRL_INTENSITY)]⟩ ∧
    setScanLimit 8 = ⟨-1, []⟩ ∧
    setScanLimit 5 = ⟨0, [(5, CTRL_SCANLIMIT)]⟩ :=
  ⟨(setBrightness_setScanLimit_range 16).1 (by omega),
   (setBrightness_setScanLimit_range 5).2.1 (by omega) (by omega),
   (setBrightness_setScanLimit_range 8).2.2.1 (by omega),
   (setBrightness_setScanLimit_range 5).2.2.2 (by omega) (by omega)⟩

/-- C6: for every character code in the lowercase range [97,122] (and every
position and any out-of-bounds flash byte), `setChar` produces exactly the
same result — same status, same frame, hence the same segment pattern — as
`setChar` on the uppercase counterpart obtained by subtracting 32. -/
theorem setChar_lowercase_eq_uppercase (oob : Nat) (place : Int) (chr : Nat)
    (h1 : 97 ≤ chr) (h2 : chr ≤ 122) :
    setChar oob place chr = setChar oob place (chr - 32) := by
  have hmod : chr % 256 = chr := Nat.mod_eq_of_lt (by omega)
  have hmod2 : (chr - 32) % 256 = chr - 32 := Nat.mod_eq_of_lt (by omega)
  have hup : toUpperByte chr = chr - 32 := by
    unfold toUpperByte; rw [if_pos ⟨h1, h2⟩]
  have hup2 : toUpperByte (chr - 32) = chr - 32 := by
    unfold toUpperByte; rw [if_neg (by omega)]
  simp only [setChar, setCharData, clampedIndex, tableIndex, hmod, hmod2, hup, hup2]

/-- Witness for C6: lowercase letter a (97) renders exactly as A (65). -/
theorem setChar_lowercase_eq_uppercase_witness :
    97 ≤ 97 ∧ 97 ≤ 122 ∧ setChar 0 0 97 = setChar 0 0 65 :=
  ⟨by decide, by decide,
   setChar_lowercase_eq_uppercase 0 0 97 (by decide) (by decide)⟩

/-- C8: for every position in [0,7] and every character (and any string given
to `setString`), `setChar` returns status 0 and transmits exactly one frame
whose data byte is the table lookup at the computed index and whose
instruction byte is `position + 1`; `setString` returns status 0
unconditionally. -/
theorem setChar_setString_always_succeed (oob sz : Nat) (place : Int)
    (chr : Nat) (s : List Nat) (h0 : 0 ≤ place) (h7 : place ≤ 7) :
    (setChar oob place chr).ret = 0 ∧
    (setChar oob place chr).frames =
      [(asciiTableRef.getD (clampedIndex chr) oob, (place + 1).toNat)] ∧
    (setString oob sz s).ret = 0 := by
  refine ⟨rfl, ?_, rfl⟩
  simp only [setChar, setCharData, setCharAddr]
  rw [Int.emod_eq_of_lt (by omega) (by omega)]

/-- Witness for C8 at position 3, character A (65), string [65]. -/
theorem setChar_setString_always_succeed_witness :
    (0:Int) ≤ 3 ∧ (3:Int) ≤ 7 ∧
    (setChar 0 3 65).ret = 0 ∧
    (setChar 0 3 65).frames = [(asciiTableRef.getD (clampedIndex 65) 0, 4)] ∧
    (setString 0 6 [65]).ret = 0 :=
  ⟨by decide, by decide,
   setChar_setString_always_succeed 0 6 3 65 [65] (by decide) (by decide)⟩

/-- C10: `setChar` never checks its position argument: for every integer
position it returns 0 (no error) and the transmitted instruction byte is
`position + 1` reduced modulo 256; in particular positions 8, 9, 10, 11 and
14 address the configuration registers decode-mode (0x09), intensity (0x0A),
scan-limit (0x0B), shutdown (0x0C) and display-test (0x0F). -/
theorem setChar_no_position_check (oob : Nat) (place : Int) (chr : Nat) :
    (setChar oob place chr).ret = 0 ∧
    (setChar oob place chr).frames.map Prod.snd = [((place + 1) % 256).toNat] ∧
    setCharAddr 8 = CTRL_DECODEMODE ∧
    setCharAddr 9 = CTRL_INTENSITY ∧
    setCharAddr 10 = CTRL_SCANLIMIT ∧
    setCharAddr 11 = CTRL_SHUTDOWN ∧
    setCharAddr 14 = CTRL_DISPLAYTEST :=
  ⟨rfl, rfl, by decide, by decide, by decide, by decide, by decide⟩

/-- C1 is violated by the code: the table has 46 entries (indices 0–45), the
bound check uses a strict `>` against the table size, so character 91
(normalized index 46) escapes the blank substitution and the transmitted data
byte is the out-of-bounds flash byte one past the table, for every position
and every value of that byte. -/
theorem setChar_oob_read_at_91 (oob : Nat) (place : Int) :
    asciiTableRef.length = 46 ∧
    tableIndex 91 = asciiTableRef.length ∧
    clampedIndex 91 ≠ 2 ∧
    asciiTableRef.get? (clampedIndex 91) = none ∧
    (setChar oob place 91).frames.map Prod.fst = [oob] :=
  ⟨rfl, by decide, by decide, by decide, rfl⟩

/-- C2 is violated by the code: `setString` derives its loop count from
`sizeof(String)` (at least 6 on any platform: a buffer pointer plus capacity
and length fields), not from the stored text, so `setString("AB")` also
overwrites position 5 — with the blank pattern transmitted to digit address
6 — instead of leaving every position below the top two untouched. -/
theorem setString_short_overwrites_extra (oob sz : Nat) (h : 6 ≤ sz) :
    ((5:Int), (0:Nat)) ∈ setStringWrites sz [65, 66] ∧
    (0, 6) ∈ (setString oob sz [65, 66]).frames := by
  have hlen : 2 < setStringLen sz := by unfold setStringLen; split <;> omega
  constructor
  · exact List.mem_map.mpr ⟨2, List.mem_range.mpr hlen, by decide⟩
  · exact List.mem_map.mpr
      ⟨((5:Int), (0:Nat)),
       List.mem_map.mpr ⟨2, List.mem_range.mpr hlen, by decide⟩, rfl⟩

/-- Witness for the C2 violation at the AVR value sizeof(String) = 6. -/
theorem setString_short_overwrites_extra_witness :
    6 ≤ 6 ∧ ((5:Int), (0:Nat)) ∈ setStringWrites 6 [65, 66] ∧
    (0, 6) ∈ (setString 0 6 [65, 66]).frames :=
  ⟨by decide, setString_short_overwrites_extra 0 6 (by decide)⟩

/-- C7 is violated by the code on its AVR target (sizeof(String) = 6, so the
loop count is 5): `setString("12345678")` transmits only the patterns of
characters 1–5, to digit addresses 8 down to 4; character 8 is never
rendered and digit address 1 (position 0) is never written. -/
theorem setString_12345678_avr (oob : Nat) :
    (setString oob 6 [49, 50, 51, 52, 53, 54, 55, 56]).frames =
      [(48, 8), (109, 7), (121, 6), (51, 5), (91, 4)] ∧
    ∀ f ∈ (setString oob 6 [49, 50, 51, 52, 53, 54, 55, 56]).frames,
      f.2 ≠ 1 := by
  have h : (setString oob 6 [49, 50, 51, 52, 53, 54, 55, 56]).frames =
      [(48, 8), (109, 7), (121, 6), (51, 5), (91, 4)] := rfl
  refine ⟨h, ?_⟩
  intro f hf
  rw [h] at hf
  fin_cases hf <;> decide

/-- C9 is violated by the code on its AVR target (sizeof(String) = 6): each
of the eight `setString("        ")` calls of `clear()` transmits the blank
pattern only to digit addresses 8 down to 4, so positions 0–2 (digit
addresses 1–3) are never blanked. -/
theorem clear_avr_misses_low_digits (oob : Nat) :
    clear oob 6 =
      List.flatten (List.replicate 8 [(0, 8), (0, 7), (0, 6), (0, 5), (0, 4)]) ∧
    ∀ f ∈ clear oob 6, f.1 = 0 ∧ 4 ≤ f.2 := by
  have h : clear oob 6 =
      List.flatten (List.replicate 8 [(0, 8), (0, 7), (0, 6), (0, 5), (0, 4)]) := rfl
  refine ⟨h, ?_⟩
  intro f hf
  rw [h] at hf
  fin_cases hf <;> decide

/-- C3 counterexample: in the trace of the constructor (shown here at pins 1, 2, 3
with the AVR string-object size 6) the intensity frame carries 15 — the top
of the 0–15 intensity range, not a value in its lower half — and no frame
ever writes the blank pattern to digit address 1, so the clear step does not
blank all digits either. -/
theorem init_brightness_not_low :
    InitEv.frame 15 CTRL_INTENSITY ∈ initTrace 0 6 1 2 3 ∧
    ¬ (15 : Nat) ≤ 7 ∧
    InitEv.frame 0 1 ∉ initTrace 0 6 1 2 3 := by decide

/-- C3 as amended: the constructor configures the three pins as outputs, sets
the latch line high, then issues exactly, in order: display-test off (data 0),
scan limit 7 (the maximum, via `setScanLimit(7)` passing its range check),
intensity 15 (the maximum brightness, via `setBrightness(15)`), power on
(shutdown register data 1), the frames of the `clear()` routine, and finally
a 1000 ms delay. -/
theorem initTrace_sequence (oob sz : Nat) (pinDIN pinCLK pinCS : Int) :
    initTrace oob sz pinDIN pinCLK pinCS =
      [InitEv.pinModeOutput pinDIN, InitEv.pinModeOutput pinCLK,
       InitEv.pinModeOutput pinCS, InitEv.writeCSHigh,
       InitEv.frame 0 CTRL_DISPLAYTEST, InitEv.frame 7 CTRL_SCANLIMIT,
       InitEv.frame 15 CTRL_INTENSITY, InitEv.frame 1 CTRL_SHUTDOWN]
      ++ ((clear oob sz).map fun f => InitEv.frame f.1 f.2)
      ++ [InitEv.delayMs 1000] := by
  unfold initTrace setScanLimit setBrightness turnOn
  norm_num
  exact ⟨rfl, rfl⟩

end MAX7219
